import Mathlib

/- Verification of the utility functions of the Git/Jira synchronization agent
   in src/main.py: the branch-name parser, the Jira CLI command builder, the
   README fetcher with its file cache, the README command extractor and the
   shell runner.  Python strings are modelled as Lean String values; the file
   system, the network, the HTML parser and the subprocess runner are modelled
   as explicit parameters, so that every function of the source becomes a pure
   Lean function of its inputs and of the behaviour of its environment. -/

/-- Embedding of the Python expression s.split(sep) for a one-character
separator, accumulator form: every occurrence of the separator ends a segment,
adjacent separators produce empty segments, and the empty input yields one
empty segment. -/
def pySplitListAux (sep : Char) : List Char → List Char → List (List Char)
  | [], acc => [acc.reverse]
  | c :: cs, acc =>
      if c = sep then acc.reverse :: pySplitListAux sep cs []
      else pySplitListAux sep cs (c :: acc)

/-- Embedding of the Python expression s.split(sep) for a one-character
separator. -/
def pySplitChar (sep : Char) (s : String) : List String :=
  (pySplitListAux sep s.data []).map String.mk

/-- Embedding of the Python expression sep.join(parts). -/
def pyJoin (sep : String) : List String → String
  | [] => ""
  | [x] => x
  | x :: y :: xs => x ++ sep ++ pyJoin sep (y :: xs)

/-- The ASCII whitespace characters removed by the Python method str.strip
with no argument: space, tab, line feed, carriage return, vertical tab and
form feed. -/
def isPySpace (c : Char) : Bool :=
  c == ' ' || c == '\t' || c == '\n' || c == '\r' || c == Char.ofNat 11 || c == Char.ofNat 12

/-- Removal of trailing whitespace, the right half of str.strip. -/
def rstripList (l : List Char) : List Char :=
  (l.reverse.dropWhile isPySpace).reverse

/-- Embedding of the Python expression s.strip() on a character list: removal
of leading and trailing whitespace. -/
def pyStripList (l : List Char) : List Char :=
  rstripList (l.dropWhile isPySpace)

/-- Embedding of the Python expression s.strip(). -/
def pyStrip (s : String) : String :=
  String.mk (pyStripList s.data)

/-- Embedding of the Python expression s.startswith(pfx). -/
def pyStartswith (pfx s : String) : Bool :=
  pfx.data.isPrefixOf s.data

/-- Embedding of get_issue_from_git_branch in src/main.py: split the branch
name on the hyphen, take the first two tokens and rejoin them with a
hyphen. -/
def get_issue_from_git_branch (branch_name : String) : String :=
  let tokens := pySplitChar '-' branch_name
  let first_two_tokens := tokens.take 2
  pyJoin "-" first_two_tokens

/-- Embedding of get_jira_cli_update_description_command in src/main.py: the
f-string interpolation of the issue key and the new description into the fixed
jira issue edit command, with no escaping of either argument. -/
def get_jira_cli_update_description_command (issue_key new_description : String) : String :=
  "jira issue edit " ++ issue_key ++ " -b'" ++ new_description ++ "' --no-input"

/-- Outcome of the call requests.get(url) in fetch_jira_cli_readme: either a
response carrying its status code, its body text and the message of the
HTTPError that raise_for_status would raise for it, or an exception raised by
the request itself, carrying its message. -/
inductive NetOutcome where
  | response (status : Nat) (text : String) (errMsg : String)
  | failure (msg : String)
deriving DecidableEq

/-- Result of one call to fetch_jira_cli_readme: the returned string, the
content of the cache file after the call (none when absent), and how many
network requests the call performed. -/
structure FetchResult where
  ret : String
  cache : Option String
  netCalls : Nat
deriving DecidableEq

/-- Embedding of requests Response.raise_for_status: it raises an HTTPError
exactly for the client-error and server-error status codes 400 through 599. -/
def raiseForStatusRaises (status : Nat) : Bool :=
  decide (400 ≤ status) && decide (status < 600)

/-- Embedding of fetch_jira_cli_readme in src/main.py.  The cache file is the
Option String argument (none when the file is absent) and the network is the
NetOutcome that the single requests.get call would produce.  When the cache
file exists its content is returned with no network request; otherwise the URL
is fetched, raise_for_status turns a 4xx or 5xx status into an HTTP Error
string, any raised exception becomes an Error string, and a body that survives
raise_for_status is written to the cache file and returned. -/
def fetch_jira_cli_readme (cache : Option String) (net : NetOutcome) : FetchResult :=
  match cache with
  | some content => ⟨content, some content, 0⟩
  | none =>
    match net with
    | NetOutcome.response status text errMsg =>
        if raiseForStatusRaises status then ⟨"HTTP Error: " ++ errMsg, none, 1⟩
        else ⟨text, some text, 1⟩
    | NetOutcome.failure msg => ⟨"Error: " ++ msg, none, 1⟩

/-- Outcome of the BeautifulSoup steps of generate_jira_cli_commands_from_readme:
parsing the HTML and searching for an article element of the markdown-body
class either raises an exception with some message, finds no element, or finds
one whose get_text call yields a string. -/
inductive FindOutcome where
  | ok (article : Option String)
  | exn (msg : String)
deriving DecidableEq

/-- The list comprehension of generate_jira_cli_commands_from_readme: keep
every line whose stripped form starts with the example marker, each in its
stripped form. -/
def command_lines (lines : List String) : List String :=
  (lines.filter fun line => pyStartswith "$ jira" (pyStrip line)).map pyStrip

/-- Embedding of generate_jira_cli_commands_from_readme in src/main.py.  The
HTML parser is the oracle find, mapping the readme content to the outcome of
the parse and of soup.find; the remaining steps (get_text split on line
breaks, strip, startswith filter) are pure string operations. -/
def generate_jira_cli_commands_from_readme
    (find : String → FindOutcome) (readme_content : String) : List String :=
  match find readme_content with
  | FindOutcome.ok (some readme_text) => command_lines (pySplitChar '\n' readme_text)
  | FindOutcome.ok none => ["Documentation not found in README"]
  | FindOutcome.exn msg => ["Error: " ++ msg]

/-- Embedding of jira_cli_commands_tool in src/main.py: fetch the readme,
extract the command lines and join them with line breaks. -/
def jira_cli_commands_tool
    (find : String → FindOutcome) (cache : Option String) (net : NetOutcome) : String :=
  let readme_content := (fetch_jira_cli_readme cache net).ret
  let generated_commands := generate_jira_cli_commands_from_readme find readme_content
  pyJoin "\n" generated_commands

/-- The CompletedProcess value produced by subprocess.run with captured
output: the exit status and the two captured textual streams. -/
structure CompletedProcess where
  returncode : Int
  stdout : String
  stderr : String
deriving DecidableEq

/-- Embedding of run_command_in_directory in src/main.py: subprocess.run is
the oracle run, mapping the command string and the working directory to the
completed process; the tool returns the two captured streams and ignores the
exit status entirely. -/
def run_command_in_directory
    (run : String → String → CompletedProcess) (directory command : String) :
    String × String :=
  let result := run command directory
  (result.stdout, result.stderr)

/-- Splitting a list that does not contain the separator yields a single
segment: the accumulator followed by the rest of the list. -/
theorem pySplitListAux_no_sep (sep : Char) (l acc : List Char)
    (h : ∀ c ∈ l, c ≠ sep) :
    pySplitListAux sep l acc = [acc.reverse ++ l] := by
  induction l generalizing acc with
  | nil => simp [pySplitListAux]
  | cons c cs ih =>
      have hc : c ≠ sep := h c (List.mem_cons_self c cs)
      have hcs : ∀ x ∈ cs, x ≠ sep := fun x hx => h x (List.mem_cons_of_mem c hx)
      simp [pySplitListAux, hc, ih (c :: acc) hcs]

/-- Splitting a string that does not contain the separator yields the string
itself as the only segment. -/
theorem pySplitChar_no_sep (sep : Char) (s : String)
    (h : ∀ c ∈ s.data, c ≠ sep) :
    pySplitChar sep s = [s] := by
  simp [pySplitChar, pySplitListAux_no_sep sep s.data [] h]

/-- Joining two strings places the separator between them. -/
theorem pyJoin_pair (sep a b : String) : pyJoin sep [a, b] = a ++ sep ++ b := rfl

/-- Claim C1: get_issue_from_git_branch splits the input on the hyphen and
rejoins the first two segments with a hyphen: when the split has at least two
segments the result is the first segment, a hyphen and the second segment;
when it has fewer than two segments the result is the join of the existing
segments, and in particular a branch name containing no hyphen is returned
unchanged (so "PROJ-123-fix-login" yields "PROJ-123", "main" yields "main"
and the empty string yields the empty string). -/
theorem get_issue_from_git_branch_spec (s : String) :
    (∀ t1 t2 rest, pySplitChar '-' s = t1 :: t2 :: rest →
        get_issue_from_git_branch s = t1 ++ "-" ++ t2)
    ∧ ((pySplitChar '-' s).length < 2 →
        get_issue_from_git_branch s = pyJoin "-" (pySplitChar '-' s))
    ∧ ((∀ c ∈ s.data, c ≠ '-') → get_issue_from_git_branch s = s) := by
  refine ⟨?_, ?_, ?_⟩
  · intro t1 t2 rest h
    simp [get_issue_from_git_branch, h, pyJoin]
  · intro h
    have h2 : (pySplitChar '-' s).length ≤ 2 := Nat.le_of_lt h
    simp [get_issue_from_git_branch, List.take_of_length_le h2]
  · intro h
    simp [get_issue_from_git_branch, pySplitChar_no_sep '-' s h, pyJoin]

/-- Witness for claim C1 at the three concrete branch names of the claim. -/
theorem get_issue_from_git_branch_spec_witness :
    get_issue_from_git_branch "PROJ-123-fix-login" = "PROJ-123"
    ∧ get_issue_from_git_branch "main" = "main"
    ∧ get_issue_from_git_branch "" = "" := by
  refine ⟨?_, ?_, ?_⟩
  · exact ((get_issue_from_git_branch_spec "PROJ-123-fix-login").1 "PROJ" "123"
      ["fix", "login"] (by decide)).trans (by decide)
  · exact (get_issue_from_git_branch_spec "main").2.2 (by decide)
  · exact (get_issue_from_git_branch_spec "").2.2 (by decide)

/-- Claim C2: get_jira_cli_update_description_command is pure string
formatting that interpolates the issue key and the new description verbatim,
with no escaping of either; at the concrete input of the claim it returns the
stated literal string. -/
theorem get_jira_cli_update_description_command_spec :
    get_jira_cli_update_description_command "PROJ-1" "new text"
      = "jira issue edit PROJ-1 -b'new text' --no-input"
    ∧ (∀ issue_key new_description,
        get_jira_cli_update_description_command issue_key new_description
          = "jira issue edit " ++ issue_key ++ " -b'" ++ new_description ++ "' --no-input") :=
  ⟨rfl, fun _ _ => rfl⟩

/-- Claim C3: cache round trip of fetch_jira_cli_readme.  With no cache file
present, a call performs the single HTTP GET, and on a successful (2xx)
response writes the response body to the cache file and returns it; with the
cache file present, a call returns the file content verbatim and performs no
network request, whatever the content is. -/
theorem fetch_jira_cli_readme_cache_round_trip :
    (∀ status text errMsg, 200 ≤ status → status < 300 →
        fetch_jira_cli_readme none (NetOutcome.response status text errMsg)
          = ⟨text, some text, 1⟩)
    ∧ (∀ net, (fetch_jira_cli_readme none net).netCalls = 1)
    ∧ (∀ content net,
        fetch_jira_cli_readme (some content) net = ⟨content, some content, 0⟩) := by
  refine ⟨?_, ?_, ?_⟩
  · intro status text errMsg h2 h3
    have hb : raiseForStatusRaises status = false := by
      simp only [raiseForStatusRaises, Bool.and_eq_false_iff, decide_eq_false_iff_not]
      omega
    simp [fetch_jira_cli_readme, hb]
  · intro net
    cases net with
    | response status text errMsg =>
        by_cases hb : raiseForStatusRaises status = true <;>
          simp [fetch_jira_cli_readme, hb]
    | failure msg => rfl
  · intro content net
    rfl

/-- Witness for claim C3: a 200 response with no cache writes and returns the
body with one network request; a present cache is returned with none. -/
theorem fetch_jira_cli_readme_cache_round_trip_witness :
    fetch_jira_cli_readme none (NetOutcome.response 200 "README BODY" "")
      = ⟨"README BODY", some "README BODY", 1⟩
    ∧ fetch_jira_cli_readme (some "CACHED CONTENT") (NetOutcome.failure "network down")
      = ⟨"CACHED CONTENT", some "CACHED CONTENT", 0⟩
    ∧ (fetch_jira_cli_readme none (NetOutcome.failure "network down")).netCalls = 1 :=
  ⟨fetch_jira_cli_readme_cache_round_trip.1 200 "README BODY" "" (by decide) (by decide),
   fetch_jira_cli_readme_cache_round_trip.2.2 "CACHED CONTENT" (NetOutcome.failure "network down"),
   fetch_jira_cli_readme_cache_round_trip.2.1 (NetOutcome.failure "network down")⟩

/-- Claim C8 as amended: with no cache file present, when the HTTP response
has a 4xx or 5xx status (the statuses for which raise_for_status raises) the
call returns the error string prefixed with HTTP Error, and when the request
raises an exception the call returns the error string prefixed with Error; in
both cases no exception propagates. -/
theorem fetch_jira_cli_readme_error_strings :
    (∀ status text errMsg, 400 ≤ status → status < 600 →
        fetch_jira_cli_readme none (NetOutcome.response status text errMsg)
          = ⟨"HTTP Error: " ++ errMsg, none, 1⟩)
    ∧ (∀ msg, fetch_jira_cli_readme none (NetOutcome.failure msg)
          = ⟨"Error: " ++ msg, none, 1⟩) := by
  refine ⟨?_, fun msg => rfl⟩
  intro status text errMsg h4 h6
  have hb : raiseForStatusRaises status = true := by
    simp only [raiseForStatusRaises, Bool.and_eq_true, decide_eq_true_eq]
    omega
  simp [fetch_jira_cli_readme, hb]

/-- Witness for claim C8 as amended, at a 404 response and at a network
failure. -/
theorem fetch_jira_cli_readme_error_strings_witness :
    fetch_jira_cli_readme none (NetOutcome.response 404 "not found page" "404 Client Error")
      = ⟨"HTTP Error: 404 Client Error", none, 1⟩
    ∧ fetch_jira_cli_readme none (NetOutcome.failure "connection refused")
      = ⟨"Error: connection refused", none, 1⟩ :=
  ⟨fetch_jira_cli_readme_error_strings.1 404 "not found page" "404 Client Error"
      (by decide) (by decide),
   fetch_jira_cli_readme_error_strings.2 "connection refused"⟩

/-- Counterexample to claim C8 as stated: 304 is not a 2xx status, yet
fetch_jira_cli_readme returns the response body verbatim (and caches it)
rather than an error string, because raise_for_status raises only for the
4xx and 5xx statuses. -/
theorem fetch_jira_cli_readme_non2xx_counterexample :
    ¬(200 ≤ 304 ∧ 304 < 300)
    ∧ fetch_jira_cli_readme none (NetOutcome.response 304 "<html>stale body</html>" "")
        = ⟨"<html>stale body</html>", some "<html>stale body</html>", 1⟩
    ∧ pyStartswith "HTTP Error: " "<html>stale body</html>" = false
    ∧ pyStartswith "Error: " "<html>stale body</html>" = false :=
  ⟨by decide, rfl, by decide, by decide⟩

/-- Claim C10 as amended: with no cache file present, the cache file is
written only when raise_for_status does not raise, that is when the status is
outside 400 through 599; on a 4xx or 5xx status or a network failure the
cache file is left absent, so error strings are never cached and a subsequent
call performs the network request again. -/
theorem fetch_jira_cli_readme_errors_not_cached :
    (∀ status text errMsg, 400 ≤ status → status < 600 →
        (fetch_jira_cli_readme none (NetOutcome.response status text errMsg)).cache = none)
    ∧ (∀ msg, (fetch_jira_cli_readme none (NetOutcome.failure msg)).cache = none)
    ∧ (∀ msg net2,
        (fetch_jira_cli_readme
            (fetch_jira_cli_readme none (NetOutcome.failure msg)).cache net2).netCalls = 1)
    ∧ (∀ status text errMsg net2, 400 ≤ status → status < 600 →
        (fetch_jira_cli_readme
            (fetch_jira_cli_readme none (NetOutcome.response status text errMsg)).cache
            net2).netCalls = 1) := by
  have hraise : ∀ status : Nat, 400 ≤ status → status < 600 →
      raiseForStatusRaises status = true := by
    intro status h4 h6
    simp only [raiseForStatusRaises, Bool.and_eq_true, decide_eq_true_eq]
    omega
  have hcalls : ∀ net, (fetch_jira_cli_readme none net).netCalls = 1 := by
    intro net
    cases net with
    | response status text errMsg =>
        by_cases hb : raiseForStatusRaises status = true <;>
          simp [fetch_jira_cli_readme, hb]
    | failure msg => rfl
  refine ⟨?_, fun msg => rfl, ?_, ?_⟩
  · intro status text errMsg h4 h6
    simp [fetch_jira_cli_readme, hraise status h4 h6]
  · intro msg net2
    exact hcalls net2
  · intro status text errMsg net2 h4 h6
    have hc : (fetch_jira_cli_readme none (NetOutcome.response status text errMsg)).cache
        = none := by simp [fetch_jira_cli_readme, hraise status h4 h6]
    rw [hc]
    exact hcalls net2

/-- Witness for claim C10 as amended, at a 500 response and at a network
failure, with a retry after each. -/
theorem fetch_jira_cli_readme_errors_not_cached_witness :
    (fetch_jira_cli_readme none (NetOutcome.response 500 "oops" "500 Server Error")).cache = none
    ∧ (fetch_jira_cli_readme none (NetOutcome.failure "timeout")).cache = none
    ∧ (fetch_jira_cli_readme
        (fetch_jira_cli_readme none (NetOutcome.failure "timeout")).cache
        (NetOutcome.response 200 "ok" "")).netCalls = 1 :=
  ⟨fetch_jira_cli_readme_errors_not_cached.1 500 "oops" "500 Server Error"
      (by decide) (by decide),
   fetch_jira_cli_readme_errors_not_cached.2.1 "timeout",
   fetch_jira_cli_readme_errors_not_cached.2.2.1 "timeout" (NetOutcome.response 200 "ok" "")⟩

/-- Counterexample to claim C10 as stated: a 301 response is not a 2xx
success, yet the response body is written to the cache file, because
raise_for_status raises only for the 4xx and 5xx statuses. -/
theorem fetch_jira_cli_readme_cache_written_counterexample :
    ¬(200 ≤ 301 ∧ 301 < 300)
    ∧ (fetch_jira_cli_readme none
        (NetOutcome.response 301 "redirect page" "")).cache = some "redirect page" :=
  ⟨by decide, rfl⟩

/-- Stripping whitespace preserves a leading example marker: a character list
that starts with the marker still starts with it after the leading and
trailing whitespace is removed, because the marker neither starts nor ends
with a whitespace character. -/
theorem dollar_jira_prefix_strip (l : List Char)
    (h : ("$ jira").data <+: l) : ("$ jira").data <+: pyStripList l := by
  obtain ⟨r, rfl⟩ := h
  have hd : List.dropWhile isPySpace ("$ jira").data = ("$ jira").data := by decide
  have hne : (("$ jira").data).isEmpty = false := by decide
  have h1 : List.dropWhile isPySpace (("$ jira").data ++ r) = ("$ jira").data ++ r := by
    rw [List.dropWhile_append, hd, hne]
    simp
  rw [pyStripList, h1, rstripList, List.reverse_append, List.dropWhile_append]
  by_cases he : (List.dropWhile isPySpace r.reverse).isEmpty = true
  · rw [if_pos he]
    have hrev : List.dropWhile isPySpace (("$ jira").data).reverse
        = (("$ jira").data).reverse := by decide
    rw [hrev, List.reverse_reverse]
  · rw [if_neg he, List.reverse_append, List.reverse_reverse]
    exact List.prefix_append _ _


/-- Stripping whitespace preserves the startswith test for the example
marker. -/
theorem pyStartswith_dollar_jira_strip (s : String)
    (h : pyStartswith "$ jira" s = true) :
    pyStartswith "$ jira" (pyStrip s) = true := by
  rw [pyStartswith, List.isPrefixOf_iff_prefix] at h ⊢
  exact dollar_jira_prefix_strip s.data h

/-- Claim C4: on HTML whose article element of the markdown-body class has
the visible text made of the lines of the claim, the extractor returns
exactly the single example line. -/
theorem generate_example_commands
    (find : String → FindOutcome) (html : String)
    (h : find html = FindOutcome.ok (some "$ jira issue list\nnot a command")) :
    generate_jira_cli_commands_from_readme find html = ["$ jira issue list"] := by
  have hg : generate_jira_cli_commands_from_readme find html
      = command_lines (pySplitChar '\n' "$ jira issue list\nnot a command") := by
    simp [generate_jira_cli_commands_from_readme, h]
  rw [hg]
  decide

/-- Witness for claim C4 at a concrete parser oracle and document. -/
theorem generate_example_commands_witness :
    generate_jira_cli_commands_from_readme
        (fun _ => FindOutcome.ok (some "$ jira issue list\nnot a command"))
        "<article></article>"
      = ["$ jira issue list"] :=
  generate_example_commands
    (fun _ => FindOutcome.ok (some "$ jira issue list\nnot a command"))
    "<article></article>" rfl

/-- Claim C5: when no matching article element is found the extractor returns
exactly the one-element sentinel sequence, and when the parse raises it
returns a one-element sequence holding the error string; being a total Lean
function of the parse outcome, it never raises. -/
theorem generate_error_paths (find : String → FindOutcome) (html : String) :
    (find html = FindOutcome.ok none →
        generate_jira_cli_commands_from_readme find html
          = ["Documentation not found in README"])
    ∧ (∀ msg, find html = FindOutcome.exn msg →
        generate_jira_cli_commands_from_readme find html = ["Error: " ++ msg])
    ∧ ((find html = FindOutcome.ok none ∨ ∃ msg, find html = FindOutcome.exn msg) →
        (generate_jira_cli_commands_from_readme find html).length = 1) := by
  refine ⟨?_, ?_, ?_⟩
  · intro h
    simp [generate_jira_cli_commands_from_readme, h]
  · intro msg h
    simp [generate_jira_cli_commands_from_readme, h]
  · rintro (h | ⟨msg, h⟩) <;> simp [generate_jira_cli_commands_from_readme, h]

/-- Witness for claim C5 at a parser oracle finding no element and at one
that raises. -/
theorem generate_error_paths_witness :
    generate_jira_cli_commands_from_readme (fun _ => FindOutcome.ok none) "plain text page"
      = ["Documentation not found in README"]
    ∧ generate_jira_cli_commands_from_readme (fun _ => FindOutcome.exn "bad markup") "x"
      = ["Error: bad markup"] :=
  ⟨(generate_error_paths (fun _ => FindOutcome.ok none) "plain text page").1 rfl,
   (generate_error_paths (fun _ => FindOutcome.exn "bad markup") "x").2.1 "bad markup" rfl⟩

/-- Claim C6 as amended: in the success case the extractor returns the
whitespace-stripped forms of exactly those lines of the element text whose
stripped form begins with the example marker; every element of the returned
sequence starts with the marker, and every line that itself begins with the
marker contributes its stripped form to the result. -/
theorem generate_success_spec
    (find : String → FindOutcome) (html readme_text : String)
    (h : find html = FindOutcome.ok (some readme_text)) :
    (generate_jira_cli_commands_from_readme find html
        = ((pySplitChar '\n' readme_text).filter
            fun line => pyStartswith "$ jira" (pyStrip line)).map pyStrip)
    ∧ (∀ x ∈ generate_jira_cli_commands_from_readme find html,
        pyStartswith "$ jira" x = true)
    ∧ (∀ line ∈ pySplitChar '\n' readme_text,
        pyStartswith "$ jira" line = true →
          pyStrip line ∈ generate_jira_cli_commands_from_readme find html) := by
  have hg : generate_jira_cli_commands_from_readme find html
      = command_lines (pySplitChar '\n' readme_text) := by
    simp [generate_jira_cli_commands_from_readme, h]
  refine ⟨by rw [hg]; rfl, ?_, ?_⟩
  · intro x hx
    rw [hg] at hx
    simp only [command_lines, List.mem_map, List.mem_filter] at hx
    obtain ⟨line, ⟨hline, hq⟩, rfl⟩ := hx
    exact hq
  · intro line hline hstart
    rw [hg]
    exact List.mem_map_of_mem pyStrip
      (List.mem_filter.mpr ⟨hline, pyStartswith_dollar_jira_strip line hstart⟩)

/-- Witness for claim C6 as amended, at a concrete two-line element text. -/
theorem generate_success_spec_witness :
    generate_jira_cli_commands_from_readme
        (fun _ => FindOutcome.ok (some "$ jira issue edit\nplain prose")) "page"
      = ((pySplitChar '\n' "$ jira issue edit\nplain prose").filter
          fun line => pyStartswith "$ jira" (pyStrip line)).map pyStrip :=
  (generate_success_spec (fun _ => FindOutcome.ok (some "$ jira issue edit\nplain prose"))
    "page" "$ jira issue edit\nplain prose" rfl).1

/-- Counterexample to claim C6 as stated: the inclusion test is applied to
the stripped line and the stripped line is what is returned, so a line with
leading whitespace is kept although it does not begin with the marker, and a
line with trailing whitespace begins with the marker yet does not itself
appear in the result. -/
theorem generate_success_counterexample :
    generate_jira_cli_commands_from_readme
        (fun _ => FindOutcome.ok (some " $ jira first\n$ jira second ")) "doc"
      = ["$ jira first", "$ jira second"]
    ∧ pyStartswith "$ jira" " $ jira first" = false
    ∧ pyStartswith "$ jira" "$ jira second " = true
    ∧ " $ jira first" ∉
        generate_jira_cli_commands_from_readme
          (fun _ => FindOutcome.ok (some " $ jira first\n$ jira second ")) "doc"
    ∧ "$ jira second " ∉
        generate_jira_cli_commands_from_readme
          (fun _ => FindOutcome.ok (some " $ jira first\n$ jira second ")) "doc" :=
  ⟨by decide, by decide, by decide, by decide, by decide⟩

/-- Claim C7: run_command_in_directory returns the two captured streams of
the completed process whatever the exit status is, so a command that writes
known text to stdout and exits with a non-zero status yields that stdout text
together with the captured stderr; being a total Lean function of the
subprocess outcome, it does not raise. -/
theorem run_command_in_directory_spec
    (run : String → String → CompletedProcess) (directory command out err : String)
    (code : Int) (hrun : run command directory = ⟨code, out, err⟩) (hcode : code ≠ 0) :
    run_command_in_directory run directory command = (out, err) := by
  simp [run_command_in_directory, hrun]

/-- Witness for claim C7 at a subprocess that writes known text and exits
with status one. -/
theorem run_command_in_directory_spec_witness :
    run_command_in_directory
        (fun _ _ => ⟨1, "known stdout text", "some stderr"⟩) "/tmp" "exit 1"
      = ("known stdout text", "some stderr") :=
  run_command_in_directory_spec (fun _ _ => ⟨1, "known stdout text", "some stderr"⟩)
    "/tmp" "exit 1" "known stdout text" "some stderr" 1 rfl (by decide)

/-- Claim C9: when the fetch fails and returns an error string, and the
parser finds no article element in that error string, jira_cli_commands_tool
returns the sentinel text and not the underlying error string, masking the
failure details from its caller. -/
theorem jira_cli_commands_tool_masks_fetch_errors
    (find : String → FindOutcome) (net : NetOutcome) (errStr : String)
    (hret : (fetch_jira_cli_readme none net).ret = errStr)
    (herr : pyStartswith "HTTP Error: " errStr = true ∨ pyStartswith "Error: " errStr = true)
    (hfind : find errStr = FindOutcome.ok none) :
    jira_cli_commands_tool find none net = "Documentation not found in README"
    ∧ jira_cli_commands_tool find none net ≠ errStr := by
  have h1 : jira_cli_commands_tool find none net = "Documentation not found in README" := by
    simp [jira_cli_commands_tool, hret, generate_jira_cli_commands_from_readme, hfind, pyJoin]
  refine ⟨h1, ?_⟩
  intro hEq
  rw [h1] at hEq
  rw [← hEq] at herr
  rcases herr with h | h <;> revert h <;> decide

/-- Witness for claim C9 at a network failure and a parser oracle finding no
element in the error text. -/
theorem jira_cli_commands_tool_masks_fetch_errors_witness :
    jira_cli_commands_tool (fun _ => FindOutcome.ok none) none (NetOutcome.failure "timeout")
      = "Documentation not found in README" :=
  (jira_cli_commands_tool_masks_fetch_errors (fun _ => FindOutcome.ok none)
    (NetOutcome.failure "timeout") "Error: timeout" rfl (Or.inr (by decide)) rfl).1
